import Mathlib

/-!
Shallow embedding of the calorie_tracker repository (Python) in Lean 4.

Python `float` arithmetic is modelled by exact rational arithmetic (`ℚ`);
Python's built-in `round` (banker's rounding, half to even) is modelled by
`pyRound`, two-argument `round(x, 1)` by `pyRound1`, and `int(x)`
(truncation toward zero) by `pyTrunc`.  `None` is modelled by `Option`.
Database rows are plain records; query results are Lean lists.
-/

set_option allowUnsafeReducibility true in
attribute [semireducible] Rat.mul Rat.inv Rat.add Rat.sub

/-- Floor of a rational, computed on the reduced numerator/denominator
(kernel-reducible, unlike the `FloorRing` instance). -/
def ratFloor (q : ℚ) : ℤ :=
  q.num.fdiv (q.den : ℤ)

/-- Python's built-in one-argument `round`: round to the nearest integer,
ties going to the even integer. -/
def pyRound (q : ℚ) : ℤ :=
  let n : ℤ := ratFloor q
  let r : ℚ := q - n
  if r < 1/2 then n
  else if 1/2 < r then n + 1
  else if n % 2 = 0 then n else n + 1

/-- Python's `round(x, 1)`: round to one decimal place (ties to even). -/
def pyRound1 (q : ℚ) : ℚ :=
  (pyRound (q * 10) : ℚ) / 10

/-- Python's `int(x)` on a float: truncation toward zero
(`Int.tdiv` truncates toward zero and `q.den` is positive). -/
def pyTrunc (q : ℚ) : ℤ :=
  q.num.tdiv (q.den : ℤ)

/-- A calendar date (the `datetime` components the code reads). -/
structure Date where
  year : ℕ
  month : ℕ
  day : ℕ
deriving DecidableEq, Repr

/-- `had_birthday_this_year` from `User.calculate_bmr`:
`today.month > birth.month or (today.month == birth.month and today.day >= birth.day)`. -/
def hadBirthday (today birth : Date) : Bool :=
  decide (birth.month < today.month ∨ (today.month = birth.month ∧ birth.day ≤ today.day))

/-- The age computation inside `User.calculate_bmr`:
`today.year - birth.year`, minus 1 when the birthday has not yet occurred. -/
def ageOn (today birth : Date) : ℤ :=
  ((today.year : ℤ) - (birth.year : ℤ)) - (if hadBirthday today birth then 0 else 1)

/-- `Gender` enum from `models/user.py`. -/
inductive Gender where
  | male
  | female
  | other
deriving DecidableEq, Repr

/-- `WeightGoal` enum from `models/user.py`. -/
inductive WeightGoal where
  | lose
  | maintain
  | gain
deriving DecidableEq, Repr

/-- The `User` row (`models/user.py`).  Activity level is kept as the raw
string stored in the column; nullable columns are `Option`. -/
structure User where
  id : ℕ := 0
  username : String := ""
  birth_date : Option Date := none
  gender : Gender := .other
  height_cm : Option ℚ := none
  weight_kg : Option ℚ := none
  activity_level : String := "moderate"
  weight_goal : WeightGoal := .maintain
  target_weight_kg : Option ℚ := none
  daily_calorie_goal : Option ℤ := none
deriving DecidableEq, Repr

/-- `User.calculate_bmr` (`models/user.py` lines 68–98).  The guard
`if not all([self.weight_kg, self.height_cm, self.birth_date])` tests Python
truthiness: a missing (`None`) value is falsy, and so is a numeric `0.0`;
a `datetime` is always truthy.  `today` stands for `datetime.now()`. -/
def User.calculate_bmr (u : User) (today : Date) : Option ℤ :=
  match u.weight_kg, u.height_cm, u.birth_date with
  | some w, some h, some b =>
    if w = 0 ∨ h = 0 then none
    else
      let age : ℚ := (ageOn today b : ℚ)
      match u.gender with
      | .male => some (pyRound (10 * w + (625/100) * h - 5 * age + 5))
      | .female => some (pyRound (10 * w + (625/100) * h - 5 * age - 161))
      | .other =>
        let male_bmr := 10 * w + (625/100) * h - 5 * age + 5
        let female_bmr := 10 * w + (625/100) * h - 5 * age - 161
        some (pyRound ((male_bmr + female_bmr) / 2))
  | _, _, _ => none

/-- The `multipliers` dictionary with its `.get(level, 1.55)` default
(`models/user.py` lines 110–119). -/
def activity_multipliers (level : String) : ℚ :=
  if level = "sedentary" then 12/10
  else if level = "light" then 1375/1000
  else if level = "moderate" then 155/100
  else if level = "active" then 1725/1000
  else if level = "very_active" then 19/10
  else 155/100

/-- `User.calculate_tdee` (`models/user.py` lines 100–119): `None` when the
BMR is `None`, otherwise BMR times the activity multiplier. -/
def User.calculate_tdee (u : User) (today : Date) : Option ℚ :=
  match u.calculate_bmr today with
  | none => none
  | some bmr => some ((bmr : ℚ) * activity_multipliers u.activity_level)

/-- The `Food` row (`models/food.py`).  Nutrition is per `serving_size_g`
grams; `calories` is an `Integer` column, the other nutrients are floats;
`fiber_g`, `sugar_g`, `sodium_mg` are nullable. -/
structure Food where
  id : ℕ := 0
  name : String := ""
  serving_size_g : ℚ := 100
  calories : ℤ := 0
  protein_g : ℚ := 0
  carbs_g : ℚ := 0
  fat_g : ℚ := 0
  fiber_g : Option ℚ := none
  sugar_g : Option ℚ := none
  sodium_mg : Option ℚ := none
deriving DecidableEq, Repr

/-- The dictionary returned by `Food.calculate_nutrition_for_serving`. -/
structure NutritionResult where
  calories : ℤ
  protein_g : ℚ
  carbs_g : ℚ
  fat_g : ℚ
  fiber_g : Option ℚ
  sugar_g : Option ℚ
  sodium_mg : Option ℤ
deriving DecidableEq, Repr

/-- `Food.calculate_nutrition_for_serving` (`models/food.py` lines 66–85):
`multiplier = serving_weight_g / serving_size_g`; calories and sodium use
`round(x)`, the other nutrients `round(x, 1)`; nullable nutrients stay
`None` when the source value is `None`. -/
def Food.calculate_nutrition_for_serving (f : Food) (serving_weight_g : ℚ) :
    NutritionResult :=
  let multiplier := serving_weight_g / f.serving_size_g
  { calories := pyRound ((f.calories : ℚ) * multiplier)
    protein_g := pyRound1 (f.protein_g * multiplier)
    carbs_g := pyRound1 (f.carbs_g * multiplier)
    fat_g := pyRound1 (f.fat_g * multiplier)
    fiber_g := f.fiber_g.map (fun x => pyRound1 (x * multiplier))
    sugar_g := f.sugar_g.map (fun x => pyRound1 (x * multiplier))
    sodium_mg := f.sodium_mg.map (fun x => pyRound (x * multiplier)) }

/-- The `FoodLog` row (`models/food.py`).  `log_date` is an abstract
timestamp ordinal. -/
structure FoodLog where
  user_id : ℕ := 0
  food_id : ℕ := 0
  meal_type : String := "other"
  serving_size_g : ℚ := 0
  log_date : ℕ := 0
  notes : Option String := none
deriving DecidableEq, Repr

/-- `FoodLog.calories` property (`models/food.py` lines 130–136).  The ORM
relationship `self.food` may be missing (`none`); the guard
`if self.food and self.serving_size_g` tests truthiness of both. -/
def FoodLog.calories (log : FoodLog) (food : Option Food) : ℤ :=
  match food with
  | some f =>
    if log.serving_size_g ≠ 0 then
      pyRound ((f.calories : ℚ) * (log.serving_size_g / f.serving_size_g))
    else 0
  | none => 0

/-- `FoodLog.protein_g` property (`models/food.py` lines 138–144). -/
def FoodLog.protein_g (log : FoodLog) (food : Option Food) : ℚ :=
  match food with
  | some f =>
    if log.serving_size_g ≠ 0 then
      pyRound1 (f.protein_g * (log.serving_size_g / f.serving_size_g))
    else 0
  | none => 0

/-- `FoodLog.carbs_g` property (`models/food.py` lines 146–152). -/
def FoodLog.carbs_g (log : FoodLog) (food : Option Food) : ℚ :=
  match food with
  | some f =>
    if log.serving_size_g ≠ 0 then
      pyRound1 (f.carbs_g * (log.serving_size_g / f.serving_size_g))
    else 0
  | none => 0

/-- `FoodLog.fat_g` property (`models/food.py` lines 154–160). -/
def FoodLog.fat_g (log : FoodLog) (food : Option Food) : ℚ :=
  match food with
  | some f =>
    if log.serving_size_g ≠ 0 then
      pyRound1 (f.fat_g * (log.serving_size_g / f.serving_size_g))
    else 0
  | none => 0

/-- `FoodLog.get_nutrition_data` (`models/food.py` lines 162–171): the empty
dictionary returned when the `Food` reference is missing is modelled as
`none`. -/
def FoodLog.get_nutrition_data (log : FoodLog) (food : Option Food) :
    Option NutritionResult :=
  match food with
  | none => none
  | some f => some (f.calculate_nutrition_for_serving log.serving_size_g)

/-- The calorie-goal assignment inside `create_user` (`cli/main.py` lines
76–85): when the TDEE is defined, `daily_calorie_goal` is set to
`int(tdee * 0.8)` / `int(tdee * 1.15)` / `int(tdee)` according to the
weight goal; otherwise the field is left unset. -/
def create_user (u : User) (today : Date) : User :=
  match u.calculate_tdee today with
  | none => u
  | some tdee =>
    let goal : ℤ :=
      match u.weight_goal with
      | .lose => pyTrunc (tdee * (8/10))
      | .gain => pyTrunc (tdee * (115/100))
      | .maintain => pyTrunc tdee
    { u with daily_calorie_goal := some goal }

/-- The derived per-log nutrition used by the summary loop in
`log_summary` (`cli/main.py` lines 619–622): each log contributes its
derived `calories`/`protein_g`/`carbs_g`/`fat_g` values. -/
structure LoggedNutrition where
  calories : ℤ := 0
  protein_g : ℚ := 0
  carbs_g : ℚ := 0
  fat_g : ℚ := 0
deriving DecidableEq, Repr

/-- One entry of the `daily_totals` list built by `log_summary`
(`cli/main.py` lines 631–639). -/
structure DayTotal where
  calories : ℤ
  protein : ℚ
  carbs : ℚ
  fat : ℚ
  log_count : ℕ
deriving DecidableEq, Repr

/-- The per-day totals computed in the `for date_str in date_range` loop of
`log_summary` (`cli/main.py` lines 615–623). -/
def dayTotalOf (day_logs : List LoggedNutrition) : DayTotal :=
  { calories := (day_logs.map LoggedNutrition.calories).sum
    protein := (day_logs.map LoggedNutrition.protein_g).sum
    carbs := (day_logs.map LoggedNutrition.carbs_g).sum
    fat := (day_logs.map LoggedNutrition.fat_g).sum
    log_count := day_logs.length }

/-- The `daily_totals` list of `log_summary`: one entry per day of the
range, in range order; a day without logs yields a zero entry with
`log_count = 0`. -/
def daily_totals (day_logs : List (List LoggedNutrition)) : List DayTotal :=
  day_logs.map dayTotalOf

/-- `days_with_logs = sum(1 for d in daily_totals if d["log_count"] > 0)`
(`cli/main.py` line 657). -/
def days_with_logs (day_logs : List (List LoggedNutrition)) : ℕ :=
  ((daily_totals day_logs).filter (fun d => 0 < d.log_count)).length

/-- `total_calories = sum(d["calories"] for d in daily_totals)`
(`cli/main.py` line 663). -/
def total_calories (day_logs : List (List LoggedNutrition)) : ℤ :=
  ((daily_totals day_logs).map DayTotal.calories).sum

/-- `total_protein` (`cli/main.py` line 664). -/
def total_protein (day_logs : List (List LoggedNutrition)) : ℚ :=
  ((daily_totals day_logs).map DayTotal.protein).sum

/-- `total_carbs` (`cli/main.py` line 665). -/
def total_carbs (day_logs : List (List LoggedNutrition)) : ℚ :=
  ((daily_totals day_logs).map DayTotal.carbs).sum

/-- `total_fat` (`cli/main.py` line 666). -/
def total_fat (day_logs : List (List LoggedNutrition)) : ℚ :=
  ((daily_totals day_logs).map DayTotal.fat).sum

/-- `avg_calories = total_calories / days_with_logs` (`cli/main.py`
line 668; reached only when `days_with_logs > 0`). -/
def avg_calories (day_logs : List (List LoggedNutrition)) : ℚ :=
  (total_calories day_logs : ℚ) / (days_with_logs day_logs : ℚ)

/-- `avg_protein` (`cli/main.py` line 669). -/
def avg_protein (day_logs : List (List LoggedNutrition)) : ℚ :=
  total_protein day_logs / (days_with_logs day_logs : ℚ)

/-- `avg_carbs` (`cli/main.py` line 670). -/
def avg_carbs (day_logs : List (List LoggedNutrition)) : ℚ :=
  total_carbs day_logs / (days_with_logs day_logs : ℚ)

/-- `avg_fat` (`cli/main.py` line 671). -/
def avg_fat (day_logs : List (List LoggedNutrition)) : ℚ :=
  total_fat day_logs / (days_with_logs day_logs : ℚ)

/-- The `WeightLog` row (`models/user.py`).  `log_date` is an abstract
timestamp ordinal carrying the full timestamp order. -/
structure WeightLog where
  user_id : ℕ := 0
  weight_kg : ℚ := 0
  log_date : ℕ := 0
  notes : Option String := none
deriving DecidableEq, Repr

/-- Timestamp order used by `order_by(WeightLog.log_date)`. -/
def WeightLog.byDate (a b : WeightLog) : Prop :=
  a.log_date ≤ b.log_date

instance : DecidableRel WeightLog.byDate :=
  fun a b => Nat.decLe a.log_date b.log_date

instance : IsTotal WeightLog WeightLog.byDate :=
  ⟨fun a b => Nat.le_total a.log_date b.log_date⟩

instance : IsTrans WeightLog WeightLog.byDate :=
  ⟨fun _ _ _ => Nat.le_trans⟩

/-- The `.order_by(WeightLog.log_date)` ascending sort of the weight-log
query in `log_summary` (`cli/main.py` lines 723–730). -/
def sortWeightLogs (logs : List WeightLog) : List WeightLog :=
  logs.insertionSort WeightLog.byDate

/-- Outcome of the weight-change section of `log_summary`. -/
inductive WeightChangeResult where
  | stable
  | gained (kg : ℚ)
  | lost (kg : ℚ)
  | insufficient
deriving DecidableEq, Repr

/-- The weight-change report of `log_summary` (`cli/main.py` lines
732–743): with at least two logs (ordered by `log_date` ascending),
compare the first and the last; `abs < 0.1` is "stable", a positive
change is "gained", a negative one "lost" with its magnitude. -/
def weight_change_report (logs : List WeightLog) : WeightChangeResult :=
  let sorted := sortWeightLogs logs
  if 2 ≤ sorted.length then
    match sorted.head?, sorted.getLast? with
    | some first, some last =>
      let weight_change := last.weight_kg - first.weight_kg
      if |weight_change| < 1/10 then .stable
      else if 0 < weight_change then .gained weight_change
      else .lost (-weight_change)
    | _, _ => .insufficient
  else .insufficient

/-- The persisted database contents touched by the CLI operations. -/
structure AppState where
  users : List User := []
  foods : List Food := []
  food_logs : List FoodLog := []
  weight_logs : List WeightLog := []
deriving DecidableEq, Repr

/-- `log_meal` (`cli/main.py` lines 399–426): look up the user by username
and the food by id; each missing lookup reports not-found and returns
before anything is written; otherwise a `FoodLog` row is appended. -/
def log_meal (st : AppState) (username : String) (food_id : ℕ)
    (serving_size : ℚ) (meal_type : String) (date : ℕ)
    (notes : Option String) : Except String AppState :=
  match st.users.find? (fun u => u.username = username) with
  | none => .error "user not found"
  | some u =>
    match st.foods.find? (fun f => f.id = food_id) with
    | none => .error "food not found"
    | some f =>
      .ok { st with food_logs := st.food_logs ++
        [{ user_id := u.id, food_id := f.id, meal_type := meal_type,
           serving_size_g := serving_size, log_date := date,
           notes := notes }] }

/-- The stored state after running `log_meal` through the CLI handler: an
error path returns before any write, so the state is unchanged. -/
def run_log_meal (st : AppState) (username : String) (food_id : ℕ)
    (serving_size : ℚ) (meal_type : String) (date : ℕ)
    (notes : Option String) : AppState :=
  match log_meal st username food_id serving_size meal_type date notes with
  | .ok st' => st'
  | .error _ => st

/-- One step of a CLI handler body as it interacts with the session
(`database/base.py` `get_db_session` and its callers): a pure mutation of
the pending session state, an explicit `session.commit()`, or a raised
exception (e.g. a `StorageFailure` from the engine). -/
inductive Step (σ : Type) where
  | write (f : σ → σ)
  | commit
  | fail

/-- A live session: the state the storage engine has durably committed and
the pending (uncommitted) state of the open transaction. -/
structure Session (σ : Type) where
  committed : σ
  pending : σ

/-- Runs a handler body inside `get_db_session` (`database/base.py` lines
64–91): `session.commit()` makes the pending state durable; an exception
triggers `session.rollback()` — pending changes since the last commit are
discarded — and the exception propagates (`raise`); when the body returns
normally the context manager commits. -/
def runSteps {σ : Type} : List (Step σ) → Session σ → Session σ × Bool
  | [], s => (⟨s.pending, s.pending⟩, false)
  | Step.write f :: rest, s => runSteps rest ⟨s.committed, f s.pending⟩
  | Step.commit :: rest, s => runSteps rest ⟨s.pending, s.pending⟩
  | Step.fail :: _, s => (⟨s.committed, s.committed⟩, true)

/-- The durable state and error flag after running one logical operation
through `get_db_session` starting from committed state `init`. -/
def get_db_session_run {σ : Type} (steps : List (Step σ)) (init : σ) :
    σ × Bool :=
  let r := runSteps steps ⟨init, init⟩
  (r.1.committed, r.2)

/-- `true` when the handler body contains no raised exception. -/
def noFail {σ : Type} : List (Step σ) → Bool
  | [] => true
  | Step.fail :: _ => false
  | _ :: rest => noFail rest

/-- `true` when the handler body contains no explicit `session.commit()`. -/
def noCommit {σ : Type} : List (Step σ) → Bool
  | [] => true
  | Step.commit :: _ => false
  | _ :: rest => noCommit rest

/-- The pure effect of a handler body: its writes applied in order. -/
def applyWrites {σ : Type} (steps : List (Step σ)) (x : σ) : σ :=
  steps.foldl (fun acc s => match s with
    | Step.write f => f acc
    | _ => acc) x

/-- Appends a user row (the `session.add(user)` of `create_user`). -/
def addUserWrite (u : User) (st : AppState) : AppState :=
  { st with users := st.users ++ [u] }

/-- Appends a weight-log row (the `session.add(weight_log)` of
`create_user`). -/
def addWeightLogWrite (w : WeightLog) (st : AppState) : AppState :=
  { st with weight_logs := st.weight_logs ++ [w] }

/-- `create_user` with an initial weight (`cli/main.py` lines 87–99) issues
two commits: it adds and commits the user, then adds and commits the
initial weight log.  This script is that handler body with a storage
failure raised at the second commit. -/
def create_user_faulty_script (u : User) (w : WeightLog) :
    List (Step AppState) :=
  [Step.write (addUserWrite u), Step.commit,
   Step.write (addWeightLogWrite w), Step.fail]

/-- The Mifflin-St Jeor value computed by `calculate_bmr` for a complete
profile, as a function of gender, weight, height and age. -/
def mifflinBmr (g : Gender) (w h age : ℚ) : ℤ :=
  match g with
  | .male => pyRound (10 * w + (625/100) * h - 5 * age + 5)
  | .female => pyRound (10 * w + (625/100) * h - 5 * age - 161)
  | .other =>
    pyRound (((10 * w + (625/100) * h - 5 * age + 5) +
              (10 * w + (625/100) * h - 5 * age - 161)) / 2)

/-- A user whose weight is present (`some`) but equal to `0`: every input of
`calculate_bmr` is present. -/
def zeroWeightUser : User :=
  { weight_kg := some 0, height_cm := some 170,
    birth_date := some ⟨1990, 1, 1⟩, gender := .male }

/-- Claim C1, counterexample: for `zeroWeightUser` the three inputs
`weight_kg`, `height_cm`, `birth_date` are all present, yet
`calculate_bmr` returns `None` instead of the Mifflin-St Jeor value,
because the code tests presence by Python truthiness and `0.0` is falsy. -/
theorem calculate_bmr_present_zero_counterexample :
    zeroWeightUser.weight_kg.isSome = true ∧
    zeroWeightUser.height_cm.isSome = true ∧
    zeroWeightUser.birth_date.isSome = true ∧
    zeroWeightUser.calculate_bmr ⟨2026, 10, 12⟩ = none := by
  decide

/-- Claim C1 (amended): for every user whose `weight_kg`, `height_cm` and
`birth_date` are all present, with weight and height nonzero,
`calculate_bmr` returns the Mifflin-St Jeor value rounded to the nearest
integer (male `10w + 6.25h - 5a + 5`, female `10w + 6.25h - 5a - 161`,
other the mean of the two), with age = year difference minus one when
today's month/day precedes the birth month/day; and for every user with
any of the three inputs missing it returns `None`. -/
theorem calculate_bmr_mifflin (u : User) (today : Date) :
    (∀ w h b, u.weight_kg = some w → w ≠ 0 → u.height_cm = some h →
      h ≠ 0 → u.birth_date = some b →
      u.calculate_bmr today =
        some (mifflinBmr u.gender w h (ageOn today b : ℚ)))
    ∧ ((u.weight_kg = none ∨ u.height_cm = none ∨ u.birth_date = none) →
        u.calculate_bmr today = none) := by
  constructor
  · intro w h b hw hw0 hh hh0 hb
    rw [User.calculate_bmr, hw, hh, hb]
    cases hg : u.gender <;> simp [hg, hw0, hh0, mifflinBmr]
  · intro hmiss
    rw [User.calculate_bmr]
    rcases hmiss with hm | hm | hm <;> rw [hm] <;>
      cases u.weight_kg <;> cases u.height_cm <;> cases u.birth_date <;> rfl

/-- Witness for the amended claim C1: the spec scenario — 80 kg, 180 cm,
exactly 30 years old, male — yields BMR 1780. -/
theorem calculate_bmr_mifflin_witness :
    User.calculate_bmr
      { weight_kg := some 80, height_cm := some 180,
        birth_date := some ⟨1996, 10, 12⟩, gender := .male }
      ⟨2026, 10, 12⟩ = some 1780 := by
  have h := (calculate_bmr_mifflin
    { weight_kg := some 80, height_cm := some 180,
      birth_date := some ⟨1996, 10, 12⟩, gender := .male }
    ⟨2026, 10, 12⟩).1 80 180 ⟨1996, 10, 12⟩ rfl (by decide) rfl (by decide)
    rfl
  exact h.trans (by decide)

/-- Claim C2: `calculate_tdee` is `None` exactly when `calculate_bmr` is;
otherwise it is BMR times the activity multiplier, where the multiplier
table maps sedentary to 1.2, light to 1.375, moderate to 1.55, active to
1.725, very_active to 1.9, and every unrecognized level to the default
1.55. -/
theorem calculate_tdee_spec (u : User) (today : Date) :
    (u.calculate_tdee today = none ↔ u.calculate_bmr today = none)
    ∧ (∀ bmr : ℤ, u.calculate_bmr today = some bmr →
        u.calculate_tdee today =
          some ((bmr : ℚ) * activity_multipliers u.activity_level))
    ∧ activity_multipliers "sedentary" = 12/10
    ∧ activity_multipliers "light" = 1375/1000
    ∧ activity_multipliers "moderate" = 155/100
    ∧ activity_multipliers "active" = 1725/1000
    ∧ activity_multipliers "very_active" = 19/10
    ∧ (∀ level : String,
        level ∉ ["sedentary", "light", "moderate", "active", "very_active"] →
        activity_multipliers level = 155/100) := by
  refine ⟨?_, ?_, by decide, by decide, by decide, by decide, by decide, ?_⟩
  · cases hb : u.calculate_bmr today <;> simp [User.calculate_tdee, hb]
  · intro bmr hb
    simp [User.calculate_tdee, hb]
  · intro level hl
    simp only [List.mem_cons, List.not_mem_nil, or_false] at hl
    push_neg at hl
    obtain ⟨h1, h2, h3, h4, h5⟩ := hl
    simp [activity_multipliers, h1, h2, h3, h4, h5]

/-- Witness for claim C2: the spec scenario user (BMR 1780, moderate
activity) has TDEE `1780 * 1.55 = 2759`. -/
theorem calculate_tdee_spec_witness :
    User.calculate_tdee
      { weight_kg := some 80, height_cm := some 180,
        birth_date := some ⟨1996, 10, 12⟩, gender := .male,
        activity_level := "moderate" }
      ⟨2026, 10, 12⟩ = some 2759 := by
  have h := (calculate_tdee_spec
    { weight_kg := some 80, height_cm := some 180,
      birth_date := some ⟨1996, 10, 12⟩, gender := .male,
      activity_level := "moderate" }
    ⟨2026, 10, 12⟩).2.1 1780 (by decide)
  exact h.trans (by decide)

/-- Claim C10: because presence is tested by truthiness, a present weight
of `0` or a present height of `0` also makes `calculate_bmr` return
`None`, and consequently `calculate_tdee` as well. -/
theorem calculate_bmr_zero_is_undefined (u : User) (today : Date)
    (h : u.weight_kg = some 0 ∨ u.height_cm = some 0) :
    u.calculate_bmr today = none ∧ u.calculate_tdee today = none := by
  have hb : u.calculate_bmr today = none := by
    rw [User.calculate_bmr]
    rcases h with h | h <;> rw [h] <;>
      cases u.weight_kg <;> cases u.height_cm <;> cases u.birth_date <;>
      simp
  exact ⟨hb, by simp [User.calculate_tdee, hb]⟩

/-- Witness for claim C10: a fully-present profile with height `0`. -/
theorem calculate_bmr_zero_is_undefined_witness :
    User.calculate_bmr
      { weight_kg := some 70, height_cm := some 0,
        birth_date := some ⟨1990, 1, 1⟩, gender := .female }
      ⟨2026, 10, 12⟩ = none ∧
    User.calculate_tdee
      { weight_kg := some 70, height_cm := some 0,
        birth_date := some ⟨1990, 1, 1⟩, gender := .female }
      ⟨2026, 10, 12⟩ = none :=
  calculate_bmr_zero_is_undefined _ _ (Or.inr rfl)

/-- Claim C3: for every food and requested serving weight, nutrition scales
linearly with `multiplier = serving / serving_size_g`; calories and sodium
are rounded to the nearest integer, protein/carbs/fat/fiber/sugar to one
decimal place; each nullable nutrient is `None` in the result exactly when
it is absent on the source food. -/
theorem calculate_nutrition_for_serving_spec (f : Food) (s : ℚ)
    (_hs : f.serving_size_g ≠ 0) :
    (f.calculate_nutrition_for_serving s).calories =
      pyRound ((f.calories : ℚ) * (s / f.serving_size_g))
    ∧ (f.calculate_nutrition_for_serving s).protein_g =
      pyRound1 (f.protein_g * (s / f.serving_size_g))
    ∧ (f.calculate_nutrition_for_serving s).carbs_g =
      pyRound1 (f.carbs_g * (s / f.serving_size_g))
    ∧ (f.calculate_nutrition_for_serving s).fat_g =
      pyRound1 (f.fat_g * (s / f.serving_size_g))
    ∧ ((f.calculate_nutrition_for_serving s).fiber_g = none ↔
        f.fiber_g = none)
    ∧ (∀ x, f.fiber_g = some x →
        (f.calculate_nutrition_for_serving s).fiber_g =
          some (pyRound1 (x * (s / f.serving_size_g))))
    ∧ ((f.calculate_nutrition_for_serving s).sugar_g = none ↔
        f.sugar_g = none)
    ∧ (∀ x, f.sugar_g = some x →
        (f.calculate_nutrition_for_serving s).sugar_g =
          some (pyRound1 (x * (s / f.serving_size_g))))
    ∧ ((f.calculate_nutrition_for_serving s).sodium_mg = none ↔
        f.sodium_mg = none)
    ∧ (∀ x, f.sodium_mg = some x →
        (f.calculate_nutrition_for_serving s).sodium_mg =
          some (pyRound (x * (s / f.serving_size_g)))) := by
  refine ⟨rfl, rfl, rfl, rfl, ?_, ?_, ?_, ?_, ?_, ?_⟩ <;>
    simp [Food.calculate_nutrition_for_serving, Option.map_eq_none']
  all_goals intro x hx; simp [hx]

/-- Witness for claim C3: the spec scenario — a 150 g serving of a food
with 200 calories per a 100 g serving yields 300 derived calories. -/
theorem calculate_nutrition_for_serving_spec_witness :
    (Food.calculate_nutrition_for_serving
      { serving_size_g := 100, calories := 200 } 150).calories = 300 := by
  have h := (calculate_nutrition_for_serving_spec
    { serving_size_g := 100, calories := 200 } 150 (by decide)).1
  exact h.trans (by decide)

/-- Claim C4: when the TDEE is defined, `create_user` persists a daily
calorie goal of `int(tdee * 0.8)` for goal "lose", `int(tdee * 1.15)` for
"gain" and `int(tdee)` for "maintain" — truncated to an integer, not
rounded. -/
theorem create_user_daily_calorie_goal (u : User) (today : Date) (tdee : ℚ)
    (ht : u.calculate_tdee today = some tdee) :
    (u.weight_goal = .lose →
      (create_user u today).daily_calorie_goal =
        some (pyTrunc (tdee * (8/10))))
    ∧ (u.weight_goal = .gain →
      (create_user u today).daily_calorie_goal =
        some (pyTrunc (tdee * (115/100))))
    ∧ (u.weight_goal = .maintain →
      (create_user u today).daily_calorie_goal = some (pyTrunc tdee)) := by
  refine ⟨?_, ?_, ?_⟩ <;> intro hg <;> simp [create_user, ht, hg]

/-- Witness for claim C4: the spec scenario user (TDEE 2759) with goal
"lose" gets `int(2759 * 0.8) = int(2207.2) = 2207`. -/
theorem create_user_daily_calorie_goal_witness :
    (create_user
      { weight_kg := some 80, height_cm := some 180,
        birth_date := some ⟨1996, 10, 12⟩, gender := .male,
        activity_level := "moderate", weight_goal := .lose }
      ⟨2026, 10, 12⟩).daily_calorie_goal = some 2207 := by
  have h := (create_user_daily_calorie_goal
    { weight_kg := some 80, height_cm := some 180,
      birth_date := some ⟨1996, 10, 12⟩, gender := .male,
      activity_level := "moderate", weight_goal := .lose }
    ⟨2026, 10, 12⟩ 2759 (by decide)).1 rfl
  exact h.trans (by decide)

/-- Claim C9: a `FoodLog` whose `Food` reference is missing reads derived
calories, protein, carbs and fat as zero (and `get_nutrition_data` returns
the empty record). -/
theorem foodlog_missing_food_reads_zero (log : FoodLog) :
    log.calories none = 0 ∧ log.protein_g none = 0 ∧ log.carbs_g none = 0 ∧
    log.fat_g none = 0 ∧ log.get_nutrition_data none = none :=
  ⟨rfl, rfl, rfl, rfl, rfl⟩

theorem daily_totals_cons (l : List LoggedNutrition)
    (rest : List (List LoggedNutrition)) :
    daily_totals (l :: rest) = dayTotalOf l :: daily_totals rest := rfl

/-- `days_with_logs` counts exactly the days of the range that have at
least one log. -/
theorem days_with_logs_eq_filter_length (dl : List (List LoggedNutrition)) :
    days_with_logs dl = (dl.filter (fun l => l ≠ [])).length := by
  induction dl with
  | nil => rfl
  | cons l rest ih =>
    by_cases hl : l = []
    · subst hl
      simpa [days_with_logs, daily_totals_cons, dayTotalOf] using ih
    · have hpos : 0 < l.length := List.length_pos.mpr hl
      simpa [days_with_logs, daily_totals_cons, dayTotalOf, hl, hpos]
        using ih

/-- Summing a per-day quantity over all days of the range equals summing it
over the days that have logs, because a log-free day contributes the empty
sum. -/
theorem sum_daily_totals {M : Type} [AddCommMonoid M] (g : DayTotal → M)
    (hg : g (dayTotalOf []) = 0) (dl : List (List LoggedNutrition)) :
    ((daily_totals dl).map g).sum =
      ((dl.filter (fun l => l ≠ [])).map (fun l => g (dayTotalOf l))).sum := by
  induction dl with
  | nil => rfl
  | cons l rest ih =>
    rw [daily_totals_cons, List.map_cons, List.sum_cons, ih]
    by_cases hl : l = []
    · subst hl
      rw [hg, zero_add, List.filter_cons_of_neg (by simp)]
    · rw [List.filter_cons_of_pos (by simpa using hl), List.map_cons,
        List.sum_cons]

/-- Claim C5: the summary's average daily calories and macronutrients are
the corresponding sums over the days that have at least one log, divided
by the number of such logged days — not by the total number of days in
the range. -/
theorem log_summary_averages (dl : List (List LoggedNutrition))
    (_h : 0 < days_with_logs dl) :
    days_with_logs dl = (dl.filter (fun l => l ≠ [])).length
    ∧ avg_calories dl =
        (((dl.filter (fun l => l ≠ [])).map
            (fun l => (dayTotalOf l).calories)).sum : ℚ) /
          ((dl.filter (fun l => l ≠ [])).length : ℚ)
    ∧ avg_protein dl =
        ((dl.filter (fun l => l ≠ [])).map
            (fun l => (dayTotalOf l).protein)).sum /
          ((dl.filter (fun l => l ≠ [])).length : ℚ)
    ∧ avg_carbs dl =
        ((dl.filter (fun l => l ≠ [])).map
            (fun l => (dayTotalOf l).carbs)).sum /
          ((dl.filter (fun l => l ≠ [])).length : ℚ)
    ∧ avg_fat dl =
        ((dl.filter (fun l => l ≠ [])).map
            (fun l => (dayTotalOf l).fat)).sum /
          ((dl.filter (fun l => l ≠ [])).length : ℚ) := by
  have hd := days_with_logs_eq_filter_length dl
  refine ⟨hd, ?_, ?_, ?_, ?_⟩
  · rw [avg_calories, total_calories, sum_daily_totals DayTotal.calories rfl,
      hd]
  · rw [avg_protein, total_protein, sum_daily_totals DayTotal.protein rfl,
      hd]
  · rw [avg_carbs, total_carbs, sum_daily_totals DayTotal.carbs rfl, hd]
  · rw [avg_fat, total_fat, sum_daily_totals DayTotal.fat rfl, hd]

/-- A 7-day range in which only two days (calories 100 and 300) have any
logs. -/
def sevenDaysTwoLogged : List (List LoggedNutrition) :=
  [[{ calories := 100 }], [], [], [{ calories := 300 }], [], [], []]

/-- Witness for claim C5: over `sevenDaysTwoLogged`, the denominator is 2
(the logged days), so the average is `(100 + 300) / 2 = 200`, not
`400 / 7`. -/
theorem log_summary_averages_witness :
    days_with_logs sevenDaysTwoLogged = 2 ∧
    avg_calories sevenDaysTwoLogged = 200 := by
  have h := log_summary_averages sevenDaysTwoLogged (by decide)
  exact ⟨h.1.trans (by decide), h.2.1.trans (by decide)⟩

/-- Claim C6: with at least two weight logs in the period, the report
compares the first and the last log of the list ordered by timestamp
ascending; an absolute difference strictly below 0.1 kg is "stable",
otherwise the change is "gained" (positive) or "lost" (negative) with its
magnitude. -/
theorem weight_change_report_spec (logs : List WeightLog)
    (first latest : WeightLog) (h2 : 2 ≤ logs.length)
    (hf : (sortWeightLogs logs).head? = some first)
    (hl : (sortWeightLogs logs).getLast? = some latest) :
    (sortWeightLogs logs).Sorted WeightLog.byDate
    ∧ (|latest.weight_kg - first.weight_kg| < 1/10 →
        weight_change_report logs = .stable)
    ∧ (1/10 ≤ |latest.weight_kg - first.weight_kg| →
        0 < latest.weight_kg - first.weight_kg →
        weight_change_report logs =
          .gained (latest.weight_kg - first.weight_kg))
    ∧ (1/10 ≤ |latest.weight_kg - first.weight_kg| →
        latest.weight_kg - first.weight_kg < 0 →
        weight_change_report logs =
          .lost (-(latest.weight_kg - first.weight_kg))) := by
  have hlen : 2 ≤ (sortWeightLogs logs).length := by
    rw [sortWeightLogs, List.length_insertionSort]
    exact h2
  refine ⟨List.sorted_insertionSort _ _, ?_, ?_, ?_⟩
  · intro hst
    rw [weight_change_report]
    simp only [if_pos hlen, hf, hl]
    rw [if_pos hst]
  · intro hge hpos
    rw [weight_change_report]
    simp only [if_pos hlen, hf, hl]
    rw [if_neg (not_lt.mpr hge), if_pos hpos]
  · intro hge hneg
    rw [weight_change_report]
    simp only [if_pos hlen, hf, hl]
    rw [if_neg (not_lt.mpr hge), if_neg (not_lt.mpr hneg.le)]

/-- Witness for claim C6: a delta of exactly 0.05 kg (70 → 70.05) is
"stable"; a delta of 0.11 kg (70 → 70.11) is "gained 0.11". -/
theorem weight_change_report_spec_witness :
    weight_change_report
      [{ weight_kg := 70, log_date := 1 },
       { weight_kg := 70 + 1/20, log_date := 2 }] = .stable
    ∧ weight_change_report
      [{ weight_kg := 70, log_date := 1 },
       { weight_kg := 70 + 11/100, log_date := 2 }] = .gained (11/100) := by
  constructor
  · exact (weight_change_report_spec
      [{ weight_kg := 70, log_date := 1 },
       { weight_kg := 70 + 1/20, log_date := 2 }]
      { weight_kg := 70, log_date := 1 }
      { weight_kg := 70 + 1/20, log_date := 2 }
      (by decide) (by decide) (by decide)).2.1 (by decide)
  · exact ((weight_change_report_spec
      [{ weight_kg := 70, log_date := 1 },
       { weight_kg := 70 + 11/100, log_date := 2 }]
      { weight_kg := 70, log_date := 1 }
      { weight_kg := 70 + 11/100, log_date := 2 }
      (by decide) (by decide) (by decide)).2.2.1 (by decide)
      (by decide)).trans (by decide)

/-- Claim C7: `log_meal` fails with a not-found error and leaves the stored
state unchanged when the user or the food does not exist, and appends
exactly one `FoodLog` row when both exist. -/
theorem log_meal_spec (st : AppState) (username : String) (food_id : ℕ)
    (serving : ℚ) (meal_type : String) (date : ℕ) (notes : Option String) :
    ((st.users.find? (fun u => u.username = username) = none ∨
      st.foods.find? (fun f => f.id = food_id) = none) →
      (∃ msg, log_meal st username food_id serving meal_type date notes =
        .error msg) ∧
      run_log_meal st username food_id serving meal_type date notes = st)
    ∧ (∀ u f, st.users.find? (fun u' => u'.username = username) = some u →
        st.foods.find? (fun f' => f'.id = food_id) = some f →
        log_meal st username food_id serving meal_type date notes =
          .ok { st with food_logs := st.food_logs ++
            [{ user_id := u.id, food_id := f.id, meal_type := meal_type,
               serving_size_g := serving, log_date := date,
               notes := notes }] }) := by
  constructor
  · intro hmiss
    rcases hmiss with hm | hm
    · exact ⟨⟨"user not found", by simp [log_meal, hm]⟩,
        by simp [run_log_meal, log_meal, hm]⟩
    · cases hu : st.users.find? (fun u => u.username = username) with
      | none => exact ⟨⟨"user not found", by simp [log_meal, hu]⟩,
          by simp [run_log_meal, log_meal, hu]⟩
      | some u => exact ⟨⟨"food not found", by simp [log_meal, hu, hm]⟩,
          by simp [run_log_meal, log_meal, hu, hm]⟩
  · intro u f hu hf
    simp [log_meal, hu, hf]

/-- A database with one user "alice" and one food with id 5. -/
def oneUserOneFood : AppState :=
  { users := [{ id := 1, username := "alice" }],
    foods := [{ id := 5, name := "apple", calories := 52 }] }

/-- Witness for claim C7: logging a meal for "alice" and food 5 appends one
row; logging for the unknown user "bob" leaves the state unchanged. -/
theorem log_meal_spec_witness :
    log_meal oneUserOneFood "alice" 5 100 "lunch" 3 none =
      .ok { oneUserOneFood with food_logs :=
        [{ user_id := 1, food_id := 5, meal_type := "lunch",
           serving_size_g := 100, log_date := 3, notes := none }] }
    ∧ run_log_meal oneUserOneFood "bob" 5 100 "lunch" 3 none =
        oneUserOneFood := by
  constructor
  · exact ((log_meal_spec oneUserOneFood "alice" 5 100 "lunch" 3 none).2
      { id := 1, username := "alice" }
      { id := 5, name := "apple", calories := 52 }
      (by decide) (by decide)).trans (congrArg Except.ok (by decide))
  · exact ((log_meal_spec oneUserOneFood "bob" 5 100 "lunch" 3 none).1
      (Or.inl (by decide))).2

theorem runSteps_noFail {σ : Type} (steps : List (Step σ)) (s : Session σ)
    (h : noFail steps = true) :
    runSteps steps s =
      (⟨applyWrites steps s.pending, applyWrites steps s.pending⟩, false) := by
  induction steps generalizing s with
  | nil => rfl
  | cons st rest ih =>
    cases st with
    | write f => exact ih ⟨s.committed, f s.pending⟩ h
    | commit => exact ih ⟨s.pending, s.pending⟩ h
    | fail => cases h

theorem runSteps_append_noFail {σ : Type} (pre rest : List (Step σ))
    (s : Session σ) (h : noFail pre = true) :
    ∃ c, runSteps (pre ++ rest) s =
      runSteps rest ⟨c, applyWrites pre s.pending⟩ := by
  induction pre generalizing s with
  | nil => exact ⟨s.committed, rfl⟩
  | cons st pre ih =>
    cases st with
    | write f => exact ih ⟨s.committed, f s.pending⟩ h
    | commit => exact ih ⟨s.pending, s.pending⟩ h
    | fail => cases h

theorem runSteps_mid_fail {σ : Type} (mid post : List (Step σ))
    (s : Session σ) (h1 : noFail mid = true) (h2 : noCommit mid = true) :
    runSteps (mid ++ Step.fail :: post) s =
      (⟨s.committed, s.committed⟩, true) := by
  induction mid generalizing s with
  | nil => rfl
  | cons st mid ih =>
    cases st with
    | write f => exact ih ⟨s.committed, f s.pending⟩ h1 h2
    | commit => cases h2
    | fail => cases h1

/-- Claim C8 (amended): `get_db_session` commits a successfully completed
handler body and reports no error; when an exception is raised it rolls
back the writes pending since the last `session.commit()` and the error
propagates — but writes committed earlier inside the same operation
survive, so an operation that commits mid-way (as `create_user` does) is
not all-or-nothing. -/
theorem get_db_session_spec {σ : Type} (steps pre mid post : List (Step σ))
    (init : σ) :
    (noFail steps = true →
      get_db_session_run steps init = (applyWrites steps init, false))
    ∧ (noFail pre = true → noFail mid = true → noCommit mid = true →
      get_db_session_run (pre ++ Step.commit :: (mid ++ Step.fail :: post))
          init =
        (applyWrites pre init, true)) := by
  constructor
  · intro h
    simp only [get_db_session_run, runSteps_noFail _ _ h]
  · intro h1 h2 h3
    obtain ⟨c, hc⟩ := runSteps_append_noFail pre
      (Step.commit :: (mid ++ Step.fail :: post)) ⟨init, init⟩ h1
    simp only [get_db_session_run, hc]
    have hcommit :
        runSteps (Step.commit :: (mid ++ Step.fail :: post))
          ⟨c, applyWrites pre init⟩ =
        runSteps (mid ++ Step.fail :: post)
          ⟨applyWrites pre init, applyWrites pre init⟩ := rfl
    rw [hcommit, runSteps_mid_fail _ _ _ h2 h3]

/-- Witness for the amended claim C8: a body that writes then commits ends
committed with no error; a body that commits and then fails after one more
write keeps the committed prefix and reports the error. -/
theorem get_db_session_spec_witness :
    get_db_session_run [Step.write Nat.succ, Step.commit] 0 = (1, false)
    ∧ get_db_session_run
        [Step.write Nat.succ, Step.commit, Step.write Nat.succ, Step.fail]
        0 = (1, true) := by
  constructor
  · exact ((get_db_session_spec [Step.write Nat.succ, Step.commit]
      [] [] [] 0).1 rfl).trans rfl
  · exact ((get_db_session_spec [] [Step.write Nat.succ]
      [Step.write Nat.succ] [] 0).2 rfl rfl rfl).trans rfl

/-- The user and initial weight log of a concrete `create_user` call. -/
def carolUser : User := { id := 1, username := "carol", weight_kg := some 70 }

/-- The initial weight log `create_user` adds after its first commit. -/
def carolWeightLog : WeightLog := { user_id := 1, weight_kg := 70 }

/-- Claim C8, counterexample: `create_user` with an initial weight commits
twice inside one logical operation; when a storage failure hits the second
commit, the error is reported but the user row already committed survives
— the durable state differs from the initial state, so the operation is
not rolled back entirely. -/
theorem get_db_session_partial_write_counterexample :
    (get_db_session_run (create_user_faulty_script carolUser carolWeightLog)
      ({} : AppState)).2 = true
    ∧ (get_db_session_run (create_user_faulty_script carolUser carolWeightLog)
      ({} : AppState)).1 ≠ ({} : AppState)
    ∧ (get_db_session_run (create_user_faulty_script carolUser carolWeightLog)
      ({} : AppState)).1 = { users := [carolUser] } := by
  exact ⟨rfl, by decide, rfl⟩
